import Mathlib

/-!
Shallow embedding of the round-resolution and match-scoring engine of
`src/rps/rock_paper_scissors.py`, together with the input-classification
helpers it relies on.  Python dict-based state becomes a Lean structure,
the global `SETTINGS` table becomes an explicit `Settings` value threaded
as a parameter where the source reads it, and the string-keyed `MOVES`
table becomes an inductive `Move` with its `alias`/`beats` columns as
functions.  Round winners keep the source's representation: `Option
String`, where `none` is a tie, `some "user"` means the user won and
`some opponent_name` means the configured opponent won.
-/

/-- The five canonical moves, the keys of the source's `MOVES` dict. -/
inductive Move where
  | rock
  | paper
  | scissor
  | spock
  | lizard
deriving DecidableEq, Repr, Fintype

/-- The `MOVES` dict in its key order, as a list. -/
def MOVES_list : List Move :=
  [Move.rock, Move.paper, Move.scissor, Move.spock, Move.lizard]

/-- The name (dict key) of each move in `MOVES`. -/
def moveName : Move → String
  | Move.rock => "rock"
  | Move.paper => "paper"
  | Move.scissor => "scissor"
  | Move.spock => "spock"
  | Move.lizard => "lizard"

/-- The `"alias"` column of the source's `MOVES` dict. -/
def moveAlias : Move → String
  | Move.rock => "r"
  | Move.paper => "p"
  | Move.scissor => "s"
  | Move.spock => "k"
  | Move.lizard => "l"

/-- The `"beats"` column of the source's `MOVES` dict. -/
def beats : Move → List Move
  | Move.rock => [Move.scissor, Move.lizard]
  | Move.paper => [Move.rock, Move.spock]
  | Move.scissor => [Move.paper, Move.lizard]
  | Move.spock => [Move.rock, Move.scissor]
  | Move.lizard => [Move.paper, Move.spock]

/-- The source's global `SETTINGS` dict. -/
structure Settings where
  opponent_name : String
  scoreboard_width : Nat
  points_to_win : Nat

/-- The literal values assigned to `SETTINGS` at module load. -/
def SETTINGS : Settings :=
  { opponent_name := "Monty", scoreboard_width := 23, points_to_win := 3 }

/-- The source's `COMMANDS` dict: key list followed by value list. -/
def COMMANDS_keys : List String := ["help", "quit"]

/-- The values of the source's `COMMANDS` dict. -/
def COMMANDS_values : List String := ["h", "q!"]

/-- `is_valid_input` from the source: membership of the raw string in the
move names, move aliases, command names and command aliases. -/
def is_valid_input (input_str : String) : Bool :=
  let moves := MOVES_list.map moveName ++ MOVES_list.map moveAlias
  let commands := COMMANDS_keys ++ COMMANDS_values
  let valid_inputs := moves ++ commands
  valid_inputs.contains input_str

/-- `get_input_type` from the source: "invalid", "command" or "move". -/
def get_input_type (input_str : String) : String :=
  if !is_valid_input input_str then "invalid"
  else if (COMMANDS_keys ++ COMMANDS_values).contains input_str then "command"
  else "move"

/-- `expand_move_abbreviation` from the source: scan `MOVES` for a matching
alias and return the move name, falling back to the argument itself. -/
def expand_move_abbreviation (a : String) : String :=
  match MOVES_list.find? (fun move => a == moveAlias move) with
  | some move => moveName move
  | none => a

/-- The `.lower()` applied to raw input in `play_round` and
`get_user_input`: character-wise ASCII case-folding of the string. -/
def py_lower (s : String) : String :=
  ⟨s.data.map Char.toLower⟩

/-- The move-classification path a raw user token takes through the source:
`play_round`/`get_user_input` lowercase the raw input, `get_input_type`
keeps only tokens typed "move", and `process_moves` expands a
single-character token through `expand_move_abbreviation`.  Returns the
canonical move name, or `none` for anything that is not a move token. -/
def classify (s : String) : Option String :=
  let t := py_lower s
  if get_input_type t == "move" then
    some (if t.length == 1 then expand_move_abbreviation t else t)
  else none

/-- The game-state dict built by `create_game` and mutated by
`process_round`. -/
structure Game where
  current_round : Nat
  tiebreaker_round : Bool
  user_score : Nat
  opponent_score : Nat
  round_winner : Option String
  grand_winner : Option String
deriving DecidableEq, Repr

/-- `create_game` from the source. -/
def create_game : Game :=
  { current_round := 1
    tiebreaker_round := false
    user_score := 0
    opponent_score := 0
    round_winner := none
    grand_winner := none }

/-- The nested `determine_round_winner` closure of `process_round`.  The
source reads the configured opponent display name from the global
`SETTINGS`; here it is the `opponent_name` parameter.  Both `if`s are
independent (no `elif`), so the second assignment overwrites the first
when both fire. -/
def determine_round_winner (opponent_name : String)
    (user_move opponent_move : Move) : Option String :=
  let winner : Option String := none
  let winner := if (beats user_move).contains opponent_move
    then some "user" else winner
  let winner := if (beats opponent_move).contains user_move
    then some opponent_name else winner
  winner

/-- The nested `determine_grand_winner` closure of `process_round`, read
after the score increment. -/
def determine_grand_winner (opponent_name : String) (game : Game) :
    Option String :=
  if game.user_score > 2 then some "user"
  else if game.opponent_score > 2 then some opponent_name
  else none

/-- The nested `increment_score` closure of `process_round`: two
independent `if`s comparing the winner string against `"user"` and against
the configured opponent name. -/
def increment_score (opponent_name : String) (game : Game)
    (winner : Option String) : Game :=
  let game := if winner == some "user"
    then { game with user_score := game.user_score + 1 } else game
  if winner == some opponent_name
    then { game with opponent_score := game.opponent_score + 1 } else game

/-- `process_round` from the source: bump the round counter, settle the
round winner, add the point, record the winner, recompute the grand winner
from the updated scores, and recompute the tiebreaker flag from the
updated scores. -/
def process_round (opponent_name : String) (game : Game)
    (user_move opponent_move : Move) : Game :=
  let game := { game with current_round := game.current_round + 1 }
  let winner := determine_round_winner opponent_name user_move opponent_move
  let game := increment_score opponent_name game winner
  let game := { game with round_winner := winner }
  let game := { game with
    grand_winner := determine_grand_winner opponent_name game }
  { game with
    tiebreaker_round :=
      game.user_score == 2 && game.opponent_score == 2 }

/-- The round resolver as the running program configures it: the nested
closure reads `SETTINGS["opponent_name"]`, which is `"Monty"`. -/
def resolve : Move → Move → Option String :=
  determine_round_winner SETTINGS.opponent_name

/-- Python truthiness of the `grand_winner` field, as tested by
`play_game`'s `while not game["grand_winner"]`: `None` and the empty
string are falsy, every other string is truthy. -/
def grand_winner_falsy : Option String → Bool
  | none => true
  | some s => s == ""

/-- One iteration attempt of `play_game`'s loop: the guard
`while not game["grand_winner"]` is checked before each round, so a round
is processed only while `grand_winner` is still falsy; on a truthy
`grand_winner` the loop exits and the state is left untouched. -/
def play_game_step (opponent_name : String) (game : Game)
    (user_move opponent_move : Move) : Game :=
  if grand_winner_falsy game.grand_winner
    then process_round opponent_name game user_move opponent_move
    else game

/-- Folding `process_round` over a list of (user move, opponent move)
pairs: the state after a sequence of resolved rounds. -/
def apply_rounds (opponent_name : String) (game : Game)
    (rounds : List (Move × Move)) : Game :=
  rounds.foldl
    (fun g p => process_round opponent_name g p.1 p.2) game

/-- Modelled from the spec: the source contains no explicit
catalog-validation routine (spec §4.1 prescribes a validation check run
once at catalog construction, whose failure is a fatal configuration
error).  This decidable check confirms the tournament invariant over the
`MOVES` catalog: no move beats itself, every move beats exactly two
others, and every pair of distinct moves is decided in exactly one
direction. -/
def validate_catalog : Bool :=
  MOVES_list.all (fun a =>
    !(beats a).contains a &&
    (beats a).length == 2 &&
    MOVES_list.all (fun b =>
      a == b || ((beats a).contains b != (beats b).contains a)))

/-! ## Claim theorems -/

/-- C1: for every pair of canonical catalog moves, the round resolver
returns a tie (winner `none`) if and only if the two moves are equal; in
particular `resolve m m` ties for every move `m`. -/
theorem resolve_tie_iff_eq :
    ∀ user_move opponent_move : Move,
      resolve user_move opponent_move = none ↔ user_move = opponent_move := by
  decide

/-- C2: for every pair of distinct canonical moves, exactly one of
`resolve a b` and `resolve b a` declares the user the winner, and the
user winning `resolve a b` is equivalent to the configured opponent
winning `resolve b a`. -/
theorem resolve_antisymm :
    ∀ a b : Move, a ≠ b →
      (resolve a b = some "user" ↔ ¬resolve b a = some "user") ∧
      (resolve a b = some "user" ↔
        resolve b a = some SETTINGS.opponent_name) := by
  decide

/-- Witness for C2 at the pair (rock, paper). -/
theorem resolve_antisymm_witness :
    (resolve Move.rock Move.paper = some "user" ↔
      ¬resolve Move.paper Move.rock = some "user") ∧
    (resolve Move.rock Move.paper = some "user" ↔
      resolve Move.paper Move.rock = some SETTINGS.opponent_name) :=
  resolve_antisymm Move.rock Move.paper (by decide)

/-- C3: the catalog's beats-relation is a tournament over the 5 moves:
every pair of distinct moves is decided in exactly one direction, each
move beats exactly 2 others and loses to the other 2, no move beats
itself, and the (spec-modelled) construction-time validation check
confirms it. -/
theorem catalog_tournament :
    (∀ a b : Move, a ≠ b → (b ∈ beats a ↔ ¬a ∈ beats b)) ∧
    (∀ m : Move,
      m ∉ beats m ∧
      (beats m).length = 2 ∧
      (MOVES_list.countP fun x => (beats m).contains x) = 2 ∧
      (MOVES_list.countP fun x => (beats x).contains m) = 2) ∧
    validate_catalog = true := by
  decide

/-- Witness for C3 at the pair (rock, scissor). -/
theorem catalog_tournament_witness :
    Move.scissor ∈ beats Move.rock ↔ ¬Move.rock ∈ beats Move.scissor :=
  catalog_tournament.1 Move.rock Move.scissor (by decide)

/-- C9: the concrete cases of the spec: rock beats scissor for the user,
spock beats rock for the opponent, lizard against lizard ties, the
classifier expands "r" to rock and rejects "banana", and a fresh match
fed two user wins then two opponent wins sits at 2-2 with the tiebreaker
flag on and no grand winner, after which one more user win makes it 3-2
with the user as grand winner. -/
theorem concrete_cases :
    resolve Move.rock Move.scissor = some "user" ∧
    resolve Move.rock Move.spock = some SETTINGS.opponent_name ∧
    resolve Move.lizard Move.lizard = none ∧
    classify "r" = some "rock" ∧
    classify "banana" = none ∧
    ((apply_rounds SETTINGS.opponent_name create_game
        [(Move.rock, Move.scissor), (Move.rock, Move.scissor),
         (Move.rock, Move.spock), (Move.rock, Move.spock)]).user_score = 2 ∧
     (apply_rounds SETTINGS.opponent_name create_game
        [(Move.rock, Move.scissor), (Move.rock, Move.scissor),
         (Move.rock, Move.spock), (Move.rock, Move.spock)]).opponent_score = 2 ∧
     (apply_rounds SETTINGS.opponent_name create_game
        [(Move.rock, Move.scissor), (Move.rock, Move.scissor),
         (Move.rock, Move.spock), (Move.rock, Move.spock)]).tiebreaker_round = true ∧
     (apply_rounds SETTINGS.opponent_name create_game
        [(Move.rock, Move.scissor), (Move.rock, Move.scissor),
         (Move.rock, Move.spock), (Move.rock, Move.spock)]).grand_winner = none) ∧
    ((apply_rounds SETTINGS.opponent_name create_game
        [(Move.rock, Move.scissor), (Move.rock, Move.scissor),
         (Move.rock, Move.spock), (Move.rock, Move.spock),
         (Move.rock, Move.scissor)]).user_score = 3 ∧
     (apply_rounds SETTINGS.opponent_name create_game
        [(Move.rock, Move.scissor), (Move.rock, Move.scissor),
         (Move.rock, Move.spock), (Move.rock, Move.spock),
         (Move.rock, Move.scissor)]).opponent_score = 2 ∧
     (apply_rounds SETTINGS.opponent_name create_game
        [(Move.rock, Move.scissor), (Move.rock, Move.scissor),
         (Move.rock, Move.spock), (Move.rock, Move.spock),
         (Move.rock, Move.scissor)]).grand_winner = some "user") := by
  decide

/-- C4 counterexample: `process_round` itself performs no terminal-state
check: called on a state whose grand winner is already set, it is not
rejected and it mutates the state (here the user's score climbs from 3 to
4). -/
theorem process_round_mutates_terminal_state :
    process_round SETTINGS.opponent_name
        { current_round := 6, tiebreaker_round := false, user_score := 3,
          opponent_score := 0, round_winner := some "user",
          grand_winner := some "user" } Move.rock Move.scissor ≠
      { current_round := 6, tiebreaker_round := false, user_score := 3,
        opponent_score := 0, round_winner := some "user",
        grand_winner := some "user" } := by
  decide

/-- C4 (amended): terminality is enforced by `play_game`'s loop guard, not
inside `process_round`: once the state's grand winner is truthy, a loop
iteration refuses to process another round and leaves every field of the
state unchanged. -/
theorem play_game_step_terminal_unchanged
    (opponent_name : String) (game : Game)
    (user_move opponent_move : Move)
    (h : grand_winner_falsy game.grand_winner = false) :
    play_game_step opponent_name game user_move opponent_move = game := by
  simp [play_game_step, h]

/-- Witness for the amended C4 on a concrete terminal state. -/
theorem play_game_step_terminal_unchanged_witness :
    play_game_step SETTINGS.opponent_name
        { current_round := 6, tiebreaker_round := false, user_score := 3,
          opponent_score := 0, round_winner := some "user",
          grand_winner := some "user" } Move.rock Move.scissor =
      { current_round := 6, tiebreaker_round := false, user_score := 3,
        opponent_score := 0, round_winner := some "user",
        grand_winner := some "user" } :=
  play_game_step_terminal_unchanged SETTINGS.opponent_name
    { current_round := 6, tiebreaker_round := false, user_score := 3,
      opponent_score := 0, round_winner := some "user",
      grand_winner := some "user" } Move.rock Move.scissor (by decide)

/-- C8 counterexample: the input path lowercases but never trims
whitespace, so a whitespace-padded variant of a valid move token is not
classified like the bare token. -/
theorem classify_not_whitespace_insensitive :
    ¬classify " rock" = classify "rock" := by
  decide

/-- A token typed "move" by `get_input_type` is one of the ten move
tokens: a full move name or a single-letter alias. -/
theorem get_input_type_move_mem (t : String)
    (h : get_input_type t = "move") :
    t = "rock" ∨ t = "paper" ∨ t = "scissor" ∨ t = "spock" ∨ t = "lizard" ∨
    t = "r" ∨ t = "p" ∨ t = "s" ∨ t = "k" ∨ t = "l" := by
  unfold get_input_type at h
  split at h
  · simp at h
  · split at h
    · simp at h
    · rename_i h1 h2
      simp [is_valid_input, MOVES_list, moveName, moveAlias, COMMANDS_keys,
        COMMANDS_values, List.contains] at h1 h2
      tauto

/-- C8 (amended): the classifier lowercases the raw token but does not
trim whitespace.  Classification is insensitive to letter casing (it
depends only on the lowercased token), each of the ten move tokens maps
to its canonical move name, the command tokens are not classified as
moves, and every string whose lowercasing is not one of the ten move
tokens yields `none`. -/
theorem classify_characterization :
    (∀ s t : String, py_lower s = py_lower t → classify s = classify t) ∧
    (classify "rock" = some "rock" ∧ classify "r" = some "rock" ∧
     classify "paper" = some "paper" ∧ classify "p" = some "paper" ∧
     classify "scissor" = some "scissor" ∧ classify "s" = some "scissor" ∧
     classify "spock" = some "spock" ∧ classify "k" = some "spock" ∧
     classify "lizard" = some "lizard" ∧ classify "l" = some "lizard") ∧
    (classify "help" = none ∧ classify "h" = none ∧
     classify "quit" = none ∧ classify "q!" = none) ∧
    (∀ s : String,
      py_lower s ≠ "rock" → py_lower s ≠ "paper" → py_lower s ≠ "scissor" →
      py_lower s ≠ "spock" → py_lower s ≠ "lizard" →
      py_lower s ≠ "r" → py_lower s ≠ "p" → py_lower s ≠ "s" →
      py_lower s ≠ "k" → py_lower s ≠ "l" → classify s = none) := by
  refine ⟨?_, by decide, by decide, ?_⟩
  · intro s t h
    simp only [classify, h]
  · intro s h1 h2 h3 h4 h5 h6 h7 h8 h9 h10
    by_cases hm : get_input_type (py_lower s) = "move"
    · rcases get_input_type_move_mem _ hm with h | h | h | h | h | h | h | h | h | h <;>
        contradiction
    · simp [classify, hm]

/-- Witness for the amended C8: "BaNaNa!" lowercases to no move token and
is rejected. -/
theorem classify_characterization_witness : classify "BaNaNa!" = none :=
  classify_characterization.2.2.2 "BaNaNa!" (by decide) (by decide)
    (by decide) (by decide) (by decide) (by decide) (by decide) (by decide)
    (by decide) (by decide)

/-- The tiebreaker flag written by `process_round` is by construction the
2-2 test on the scores the round leaves behind. -/
theorem process_round_tiebreaker_eq (opponent_name : String) (game : Game)
    (user_move opponent_move : Move) :
    (process_round opponent_name game user_move opponent_move).tiebreaker_round =
      ((process_round opponent_name game user_move opponent_move).user_score == 2 &&
       (process_round opponent_name game user_move opponent_move).opponent_score == 2) :=
  rfl

/-- The grand winner written by `process_round` is `determine_grand_winner`
applied to the scores the round leaves behind. -/
theorem process_round_grand_eq (opponent_name : String) (game : Game)
    (user_move opponent_move : Move) :
    (process_round opponent_name game user_move opponent_move).grand_winner =
      determine_grand_winner opponent_name
        (process_round opponent_name game user_move opponent_move) :=
  rfl

/-- With the configured opponent name, one round either adds one point to
the user, or one point to the opponent, or leaves both scores alone. -/
theorem process_round_scores_cases (game : Game)
    (user_move opponent_move : Move) :
    ((process_round SETTINGS.opponent_name game user_move opponent_move).user_score =
        game.user_score + 1 ∧
      (process_round SETTINGS.opponent_name game user_move opponent_move).opponent_score =
        game.opponent_score) ∨
    ((process_round SETTINGS.opponent_name game user_move opponent_move).user_score =
        game.user_score ∧
      (process_round SETTINGS.opponent_name game user_move opponent_move).opponent_score =
        game.opponent_score + 1) ∨
    ((process_round SETTINGS.opponent_name game user_move opponent_move).user_score =
        game.user_score ∧
      (process_round SETTINGS.opponent_name game user_move opponent_move).opponent_score =
        game.opponent_score) := by
  cases user_move <;> cases opponent_move <;>
    simp [process_round, determine_round_winner, increment_score, beats,
      SETTINGS]

/-- C5: immediately after every applied round the tiebreaker flag is true
iff the updated scores are 2 and 2; and it is recomputed from the current
scores each round rather than latched: a tied round (equal moves) leaves
the scores alone and sets the flag to the 2-2 test on those scores, so it
stays true across a tied round at 2-2. -/
theorem tiebreaker_recomputed (game : Game) (user_move opponent_move : Move) :
    ((process_round SETTINGS.opponent_name game user_move opponent_move).tiebreaker_round = true ↔
      (process_round SETTINGS.opponent_name game user_move opponent_move).user_score = 2 ∧
      (process_round SETTINGS.opponent_name game user_move opponent_move).opponent_score = 2) ∧
    (user_move = opponent_move →
      (process_round SETTINGS.opponent_name game user_move opponent_move).tiebreaker_round =
        (game.user_score == 2 && game.opponent_score == 2)) := by
  constructor
  · rw [process_round_tiebreaker_eq]
    simp
  · rintro rfl
    cases user_move <;>
      simp [process_round, determine_round_winner, increment_score, beats]

/-- Witness for C5: a fresh game after a tied rock round has the flag off,
matching the 0-0 scores. -/
theorem tiebreaker_recomputed_witness :
    (process_round SETTINGS.opponent_name create_game Move.rock Move.rock).tiebreaker_round =
      (create_game.user_score == 2 && create_game.opponent_score == 2) :=
  (tiebreaker_recomputed create_game Move.rock Move.rock).2 rfl

/-- C6: starting from a state where both scores are at most 2 (as every
reachable non-terminal state is), the round leaves the grand winner at
`some "user"` iff the user's updated score reached 3, at the configured
opponent name iff the opponent's updated score reached 3, and unset iff
neither did; the tiebreaker flag plays no part (the state's flag is
arbitrary here). -/
theorem grand_winner_thresholds (game : Game)
    (user_move opponent_move : Move)
    (hu : game.user_score ≤ 2) (ho : game.opponent_score ≤ 2) :
    ((process_round SETTINGS.opponent_name game user_move opponent_move).grand_winner =
        some "user" ↔
      3 ≤ (process_round SETTINGS.opponent_name game user_move opponent_move).user_score) ∧
    ((process_round SETTINGS.opponent_name game user_move opponent_move).grand_winner =
        some SETTINGS.opponent_name ↔
      3 ≤ (process_round SETTINGS.opponent_name game user_move opponent_move).opponent_score) ∧
    ((process_round SETTINGS.opponent_name game user_move opponent_move).grand_winner = none ↔
      ((process_round SETTINGS.opponent_name game user_move opponent_move).user_score < 3 ∧
       (process_round SETTINGS.opponent_name game user_move opponent_move).opponent_score < 3)) := by
  rcases process_round_scores_cases game user_move opponent_move with
    ⟨h1, h2⟩ | ⟨h1, h2⟩ | ⟨h1, h2⟩ <;>
  · simp only [process_round_grand_eq]
    unfold determine_grand_winner
    rw [h1, h2]
    split_ifs <;> simp [SETTINGS] <;> omega

/-- Witness for C6 on a fresh game and a user-winning round. -/
theorem grand_winner_thresholds_witness :
    ((process_round SETTINGS.opponent_name create_game Move.rock Move.scissor).grand_winner =
        some "user" ↔
      3 ≤ (process_round SETTINGS.opponent_name create_game Move.rock Move.scissor).user_score) ∧
    ((process_round SETTINGS.opponent_name create_game Move.rock Move.scissor).grand_winner =
        some SETTINGS.opponent_name ↔
      3 ≤ (process_round SETTINGS.opponent_name create_game Move.rock Move.scissor).opponent_score) ∧
    ((process_round SETTINGS.opponent_name create_game Move.rock Move.scissor).grand_winner = none ↔
      ((process_round SETTINGS.opponent_name create_game Move.rock Move.scissor).user_score < 3 ∧
       (process_round SETTINGS.opponent_name create_game Move.rock Move.scissor).opponent_score < 3)) :=
  grand_winner_thresholds create_game Move.rock Move.scissor
    (by decide) (by decide)

/-- One round adds exactly one point in total unless it ties (winner
`none`), in which case it adds none. -/
theorem process_round_score_sum (game : Game)
    (user_move opponent_move : Move) :
    (process_round SETTINGS.opponent_name game user_move opponent_move).user_score +
      (process_round SETTINGS.opponent_name game user_move opponent_move).opponent_score +
      (if determine_round_winner SETTINGS.opponent_name user_move opponent_move == none
        then 1 else 0) =
    game.user_score + game.opponent_score + 1 := by
  cases user_move <;> cases opponent_move <;>
    simp [process_round, determine_round_winner, increment_score, beats,
      SETTINGS] <;>
    omega

/-- Unfolding one round of `apply_rounds`. -/
theorem apply_rounds_cons (opponent_name : String) (game : Game)
    (p : Move × Move) (rounds : List (Move × Move)) :
    apply_rounds opponent_name game (p :: rounds) =
      apply_rounds opponent_name
        (process_round opponent_name game p.1 p.2) rounds :=
  rfl

/-- Over any sequence of rounds, total score gained plus ties equals the
number of rounds played. -/
theorem apply_rounds_sum (rounds : List (Move × Move)) :
    ∀ game : Game,
      (apply_rounds SETTINGS.opponent_name game rounds).user_score +
        (apply_rounds SETTINGS.opponent_name game rounds).opponent_score +
        rounds.countP
          (fun p => determine_round_winner SETTINGS.opponent_name p.1 p.2 == none) =
      game.user_score + game.opponent_score + rounds.length := by
  induction rounds with
  | nil => intro game; simp [apply_rounds]
  | cons p rs ih =>
    intro game
    rw [apply_rounds_cons]
    simp only [List.countP_cons, List.length_cons]
    have h := process_round_score_sum game p.1 p.2
    have h2 := ih (process_round SETTINGS.opponent_name game p.1 p.2)
    omega

/-- A round the user wins adds one point to the user and none to the
opponent. -/
theorem process_round_user_win (game : Game) (user_move opponent_move : Move)
    (h : determine_round_winner SETTINGS.opponent_name user_move opponent_move =
      some "user") :
    (process_round SETTINGS.opponent_name game user_move opponent_move).user_score =
      game.user_score + 1 ∧
    (process_round SETTINGS.opponent_name game user_move opponent_move).opponent_score =
      game.opponent_score := by
  have h' : determine_round_winner "Monty" user_move opponent_move =
    some "user" := h
  simp [process_round, increment_score, SETTINGS, h']

/-- A round the opponent wins adds one point to the opponent and none to
the user. -/
theorem process_round_opponent_win (game : Game)
    (user_move opponent_move : Move)
    (h : determine_round_winner SETTINGS.opponent_name user_move opponent_move =
      some SETTINGS.opponent_name) :
    (process_round SETTINGS.opponent_name game user_move opponent_move).user_score =
      game.user_score ∧
    (process_round SETTINGS.opponent_name game user_move opponent_move).opponent_score =
      game.opponent_score + 1 := by
  have h' : determine_round_winner "Monty" user_move opponent_move =
    some "Monty" := h
  simp [process_round, increment_score, SETTINGS, h']

/-- A tied round changes neither score. -/
theorem process_round_tie (game : Game) (user_move opponent_move : Move)
    (h : determine_round_winner SETTINGS.opponent_name user_move opponent_move =
      none) :
    (process_round SETTINGS.opponent_name game user_move opponent_move).user_score =
      game.user_score ∧
    (process_round SETTINGS.opponent_name game user_move opponent_move).opponent_score =
      game.opponent_score := by
  have h' : determine_round_winner "Monty" user_move opponent_move =
    none := h
  simp [process_round, increment_score, SETTINGS, h']

/-- C7: from the fresh state, after any sequence of N resolved rounds the
scores sum to at most N, with equality exactly when no round tied; and
per round, a user win adds one point to the user only, an opponent win
one point to the opponent only, and a tie none. -/
theorem score_sum_bound (rounds : List (Move × Move)) :
    (apply_rounds SETTINGS.opponent_name create_game rounds).user_score +
        (apply_rounds SETTINGS.opponent_name create_game rounds).opponent_score ≤
      rounds.length ∧
    ((apply_rounds SETTINGS.opponent_name create_game rounds).user_score +
        (apply_rounds SETTINGS.opponent_name create_game rounds).opponent_score =
      rounds.length ↔
      ∀ p ∈ rounds,
        determine_round_winner SETTINGS.opponent_name p.1 p.2 ≠ none) ∧
    (∀ (game : Game) (user_move opponent_move : Move),
      (determine_round_winner SETTINGS.opponent_name user_move opponent_move = some "user" →
        (process_round SETTINGS.opponent_name game user_move opponent_move).user_score =
          game.user_score + 1 ∧
        (process_round SETTINGS.opponent_name game user_move opponent_move).opponent_score =
          game.opponent_score) ∧
      (determine_round_winner SETTINGS.opponent_name user_move opponent_move =
          some SETTINGS.opponent_name →
        (process_round SETTINGS.opponent_name game user_move opponent_move).user_score =
          game.user_score ∧
        (process_round SETTINGS.opponent_name game user_move opponent_move).opponent_score =
          game.opponent_score + 1) ∧
      (determine_round_winner SETTINGS.opponent_name user_move opponent_move = none →
        (process_round SETTINGS.opponent_name game user_move opponent_move).user_score =
          game.user_score ∧
        (process_round SETTINGS.opponent_name game user_move opponent_move).opponent_score =
          game.opponent_score)) := by
  have h := apply_rounds_sum rounds create_game
  rw [show create_game.user_score = 0 from rfl,
    show create_game.opponent_score = 0 from rfl] at h
  have hcount : rounds.countP
      (fun p => determine_round_winner SETTINGS.opponent_name p.1 p.2 == none) = 0 ↔
      ∀ p ∈ rounds,
        determine_round_winner SETTINGS.opponent_name p.1 p.2 ≠ none := by
    rw [List.countP_eq_zero]
    simp
  refine ⟨by omega, ?_, ?_⟩
  · rw [← hcount]
    omega
  · intro game user_move opponent_move
    exact ⟨process_round_user_win game user_move opponent_move,
      process_round_opponent_win game user_move opponent_move,
      process_round_tie game user_move opponent_move⟩

/-- Witness for C7: a single user-winning round sums the scores to 1. -/
theorem score_sum_bound_witness :
    (apply_rounds SETTINGS.opponent_name create_game
        [(Move.rock, Move.scissor)]).user_score +
      (apply_rounds SETTINGS.opponent_name create_game
        [(Move.rock, Move.scissor)]).opponent_score = 1 :=
  (score_sum_bound [(Move.rock, Move.scissor)]).2.1.mpr (by decide)

/-- C10: with the winner recorded as the literal string "user" or the
configured opponent display name, an opponent configured with the name
"user" makes a user-won round increment both scores at once, while any
opponent name other than "user" lets at most one score change per round. -/
theorem opponent_named_user_double_increment :
    (∀ (game : Game) (user_move opponent_move : Move),
      (beats user_move).contains opponent_move = true →
      (process_round "user" game user_move opponent_move).user_score =
        game.user_score + 1 ∧
      (process_round "user" game user_move opponent_move).opponent_score =
        game.opponent_score + 1) ∧
    (∀ opponent_name : String, opponent_name ≠ "user" →
      ∀ (game : Game) (user_move opponent_move : Move),
      (process_round opponent_name game user_move opponent_move).user_score =
        game.user_score ∨
      (process_round opponent_name game user_move opponent_move).opponent_score =
        game.opponent_score) := by
  constructor
  · intro game user_move opponent_move h
    cases user_move <;> cases opponent_move <;>
      simp_all [process_round, determine_round_winner, increment_score, beats]
  · intro opponent_name h game user_move opponent_move
    have h' : "user" ≠ opponent_name := Ne.symm h
    cases user_move <;> cases opponent_move <;>
      simp [process_round, determine_round_winner, increment_score, beats,
        h, h']

/-- Witness for C10: rock crushes scissor with the opponent named "user"
(both scores move), and with the default name "Monty" (one score moves). -/
theorem opponent_named_user_double_increment_witness :
    ((process_round "user" create_game Move.rock Move.scissor).user_score =
        create_game.user_score + 1 ∧
      (process_round "user" create_game Move.rock Move.scissor).opponent_score =
        create_game.opponent_score + 1) ∧
    ((process_round "Monty" create_game Move.rock Move.scissor).user_score =
        create_game.user_score ∨
      (process_round "Monty" create_game Move.rock Move.scissor).opponent_score =
        create_game.opponent_score) :=
  ⟨opponent_named_user_double_increment.1 create_game Move.rock Move.scissor
      (by decide),
    opponent_named_user_double_increment.2 "Monty" (by decide) create_game
      Move.rock Move.scissor⟩
